import Mathlib

/-!
Verification of the AquaChain resource-metering and billing ledger.

The repository consists of a TypeScript HTTP façade (`src/api`) and the
reference test suites (`src/tests`, `src/unnamed`) for an on-chain Anchor
program.  The on-chain program's own source (`programs/aquachain`) is not part
of the repository, so its state-transition functions are modelled here from
the specification, with the concrete arithmetic pinned to the expected-value
computations asserted by the repository's reference tests
(`src/tests/tariffs.ts`, `src/tests/consumer.ts`, `src/tests/payments.ts`).
The façade routes (`src/api/src/controllers`) and the token-directory service
(`src/api/src/services/solana.ts`) are embedded directly from their source.
-/

namespace AquaChain

/-- Fixed-point scale used throughout the reference tests (`const SCALE = 1000`
in `src/tests/tariffs.ts` and `src/tests/payments.ts`). -/
def SCALE : ℕ := 1000

/-- Ceiling division on naturals: `ceilDiv a b = ⌈a / b⌉` for `b > 0`. -/
def ceilDiv (a b : ℕ) : ℕ := (a + b - 1) / b

/-- Ceiling division on integers: for `b > 0`, `ceilDivInt a b = ⌈a / b⌉`
(the division `/` on `ℤ` is euclidean division, which floors for a positive
divisor). -/
def ceilDivInt (a b : ℤ) : ℤ := -(-a / b)

/-- The three tariff rate structures of the base model, as in the reference
tests (`{ uniformIbt: {} }`, `{ seasonalIbt: {} }`, `{ seasonalDbt: {} }`). -/
inductive TariffType
  | uniformIbt
  | seasonalIbt
  | seasonalDbt
  deriving DecidableEq, Repr

/-- Tariff account state (`initializeTariff(tariffKey, waterRate, wasteRate,
tariffType)` in the reference tests). -/
structure Tariff where
  waterRate : ℕ
  wasteRate : ℕ
  tariffType : TariffType
  deriving DecidableEq, Repr

/-- Reservoir account state (`initializeReservoir(reservoirKey, currentLevel,
capacity)` in the reference tests). -/
structure Reservoir where
  currentLevel : ℕ
  capacity : ℕ
  deriving DecidableEq, Repr

/-- Modelled from the spec: the excess-usage cost of the Rate Model (§4.1),
whose on-chain source (`programs/aquachain`) is missing from the repository.
The arithmetic follows the expected-value computations asserted by the
reference test `src/tests/tariffs.ts` ("Tariff types for usage beyond
contracted capacity"), with that test's exact rational divisions combined
into a single ceiling division:
uniform: `excess * blockRate / SCALE`;
seasonal increasing: `(excess * blockRate / SCALE) * (capacity - level) / SCALE`;
seasonal decreasing:
`(excess * blockRate / SCALE) * (2*SCALE - level*SCALE/capacity) / SCALE`.
Note the seasonal multipliers carry no base-rate term, and the decreasing
multiplier is not clamped (spec §9 records that the source does not bound
it). -/
def excessCost (tt : TariffType) (excess blockRate : ℕ) (r : Reservoir) : ℤ :=
  match tt with
  | .uniformIbt => ceilDivInt (excess * blockRate : ℕ) SCALE
  | .seasonalIbt =>
      ceilDivInt ((excess * blockRate : ℕ) * ((r.capacity : ℤ) - (r.currentLevel : ℤ)))
        ((SCALE : ℤ) * (SCALE : ℤ))
  | .seasonalDbt =>
      ceilDivInt ((excess * blockRate : ℕ) * (2 * (r.capacity : ℤ) - (r.currentLevel : ℤ)))
        ((r.capacity : ℤ) * (SCALE : ℤ))

/-- Modelled from the spec: `compute_usage_cost(amount, contracted_remaining,
tariff, reservoir)` of the Rate Model (§4.1), whose on-chain source is missing
from the repository.  `in_contract = min(amount, remaining)` is priced at the
tariff's base water rate with ceiling division by `SCALE` (§8: in-contract and
excess portions are each ceiling-rounded and summed); the excess portion is
priced by `excessCost`; the new remaining capacity is
`remaining - in_contract`. -/
def computeUsageCost (amount remaining : ℕ) (t : Tariff) (blockRate : ℕ)
    (r : Reservoir) : ℤ × ℕ :=
  let inContract := min amount remaining
  let excess := amount - inContract
  ((ceilDiv (inContract * t.waterRate) SCALE : ℕ) +
      excessCost t.tariffType excess blockRate r,
    remaining - inContract)

/-- Modelled from the spec: the waste cost of the Rate Model (§4.1), whose
on-chain source is missing from the repository:
`waste_cost = ceil(amount * waste_rate / SCALE)`, unconditional (no block
structure); matches `src/tests/tariffs.ts` ("Consumer can dispose waste"). -/
def computeWasteCost (amount wasteRate : ℕ) : ℕ :=
  ceilDiv (amount * wasteRate) SCALE

/-- Consumer account state together with the observable token balances of the
ledger: usage tokens (WTK), capacity tokens (WATC) and waste tokens (WST). -/
structure ConsumerState where
  contractedCapacity : ℕ
  blockRate : ℕ
  wtkBalance : ℕ
  watcBalance : ℕ
  wstBalance : ℕ
  deriving DecidableEq, Repr

/-- Domain errors of the ledger operations (spec §7). -/
inductive LedgerError
  | invalidAmount
  | insufficientBalance
  deriving DecidableEq, Repr

/-- Modelled from the spec: `register_consumer` (§4.4), whose on-chain source
is missing from the repository.  Stores the consumer record and mints exactly
`contracted_capacity` capacity tokens to the consumer, as asserted by
`src/tests/consumer.ts` ("initialization is correct"). -/
def registerConsumer (contractedCapacity blockRate : ℕ) : ConsumerState :=
  { contractedCapacity := contractedCapacity
    blockRate := blockRate
    wtkBalance := 0
    watcBalance := contractedCapacity
    wstBalance := 0 }

/-- Modelled from the spec: `update_consumer` (§4.4), whose on-chain source is
missing from the repository.  Resynchronizes the capacity-token balance to the
new `contracted_capacity` (mint the delta if increased, burn the delta if
decreased), failing with `InsufficientBalance` if the burn exceeds the held
balance; asserted by `src/tests/consumer.ts` ("should update rates on the
initialized consumer"). -/
def updateConsumer (newCapacity newBlockRate : ℕ) (c : ConsumerState) :
    Except LedgerError ConsumerState :=
  if c.contractedCapacity ≤ newCapacity then
    .ok { c with
      contractedCapacity := newCapacity
      blockRate := newBlockRate
      watcBalance := c.watcBalance + (newCapacity - c.contractedCapacity) }
  else if c.watcBalance < c.contractedCapacity - newCapacity then
    .error .insufficientBalance
  else
    .ok { c with
      contractedCapacity := newCapacity
      blockRate := newBlockRate
      watcBalance := c.watcBalance - (c.contractedCapacity - newCapacity) }

/-- A register-then-update sequence: apply `updateConsumer` for each
`(capacity, blockRate)` pair in order. -/
def applyUpdates (c : ConsumerState) (us : List (ℕ × ℕ)) :
    Except LedgerError ConsumerState :=
  us.foldlM (fun s u => updateConsumer u.1 u.2 s) c

/-- Modelled from the spec: `use_water` (§4.4), whose on-chain source is
missing from the repository.  Fails with `InvalidAmount` for `amount ≤ 0`;
otherwise prices the amount with `computeUsageCost` against the remaining
capacity-token balance, mints the cost in usage tokens and burns the
in-contract portion of capacity tokens. -/
def useWater (amount : ℤ) (t : Tariff) (r : Reservoir) (c : ConsumerState) :
    Except LedgerError ConsumerState :=
  if amount ≤ 0 then .error .invalidAmount
  else
    let a := amount.toNat
    let result := computeUsageCost a c.watcBalance t c.blockRate r
    .ok { c with
      wtkBalance := c.wtkBalance + result.1.toNat
      watcBalance := result.2 }

/-- Modelled from the spec: `dispose_waste` (§4.4), whose on-chain source is
missing from the repository.  Fails with `InvalidAmount` for `amount ≤ 0`;
otherwise mints `computeWasteCost` waste tokens. -/
def disposeWaste (amount : ℤ) (t : Tariff) (c : ConsumerState) :
    Except LedgerError ConsumerState :=
  if amount ≤ 0 then .error .invalidAmount
  else
    .ok { c with
      wstBalance := c.wstBalance + computeWasteCost amount.toNat t.wasteRate }

/-- Modelled from the spec: `pay_for_water` (§4.4), whose on-chain source is
missing from the repository.  Burns the requested amount of usage tokens;
fails with `InsufficientBalance` if the burn exceeds the held balance.  A pure
balance reduction: no Rate Model involvement. -/
def payForWater (amount : ℕ) (c : ConsumerState) :
    Except LedgerError ConsumerState :=
  if c.wtkBalance < amount then .error .insufficientBalance
  else .ok { c with wtkBalance := c.wtkBalance - amount }

/-- Modelled from the spec: `pay_for_waste` (§4.4), whose on-chain source is
missing from the repository.  Burns the requested amount of waste tokens;
fails with `InsufficientBalance` if the burn exceeds the held balance. -/
def payForWaste (amount : ℕ) (c : ConsumerState) :
    Except LedgerError ConsumerState :=
  if c.wstBalance < amount then .error .insufficientBalance
  else .ok { c with wstBalance := c.wstBalance - amount }

/-- The token directory record, as returned by `InitOrFetchTokens` in
`src/api/src/services/solana.ts` (mint addresses modelled as numeric
identifiers). -/
structure TokenAccounts where
  WTK : ℕ
  WATC : ℕ
  WST : ℕ
  deriving DecidableEq, Repr

/-- Embedded from `src/api/src/services/solana.ts` (`InitOrFetchTokens`): if
the tokens account exists, return its stored mints and leave it unchanged;
otherwise create new mints (supplied here as `freshMints`), persist them via
`initializeTokens`, and return them.  The pair is (returned mints, directory
state after the call). -/
def InitOrFetchTokens (directory : Option TokenAccounts)
    (freshMints : TokenAccounts) : TokenAccounts × Option TokenAccounts :=
  match directory with
  | some tokenAccount => (tokenAccount, some tokenAccount)
  | none => (freshMints, some freshMints)

/-- HTTP statuses produced by the façade routes. -/
inductive HttpStatus
  | ok200
  | badRequest400
  | notFound404
  | serverError500
  deriving DecidableEq, Repr

/-- Embedded from `src/api/src/controllers/consumer.ts`, route
`POST /:pubkey/water/charge`: the guard `if (!amount)` rejects exactly the
JS-falsy numeric amounts (0, or a missing field, modelled here as amount 0)
with a 400 response; otherwise the consumer account is fetched (404 when
absent) and the `useWater` instruction is issued, any failure of which is
caught and surfaced as a 500 response.  The pair is (response status,
consumer account state after the call). -/
def chargeWaterRoute (amount : ℤ) (consumer : Option ConsumerState)
    (t : Tariff) (r : Reservoir) : HttpStatus × Option ConsumerState :=
  if amount = 0 then (.badRequest400, consumer)
  else
    match consumer with
    | none => (.notFound404, none)
    | some c =>
      match useWater amount t r c with
      | .ok c' => (.ok200, some c')
      | .error _ => (.serverError500, some c)

/-- Request body of `PUT /reservoir/:pubkey`: both numeric fields are
optional. -/
structure ReservoirUpdateBody where
  current_level : Option ℤ
  capacity : Option ℤ
  deriving DecidableEq, Repr

/-- JS truthiness test `!x` on an optional numeric field: true iff the field
is missing or zero. -/
def isFalsy : Option ℤ → Bool
  | none => true
  | some v => v = 0

/-- The `updateReservoir` instruction issued by the façade, with its two
numeric arguments. -/
structure UpdateReservoirIx where
  level : ℤ
  capacity : ℤ
  deriving DecidableEq, Repr

/-- Embedded from `src/api/src/controllers/reservoir.ts`, route
`PUT /:pubkey`: if `!current_level` (missing or zero) respond 400 and issue
no instruction; if `!capacity` (missing or zero) re-read the stored capacity
and pass it through unchanged; otherwise issue `updateReservoir` with the
given level and capacity.  The pair is (response status, instruction issued,
if any). -/
def updateReservoirRoute (body : ReservoirUpdateBody) (storedCapacity : ℤ) :
    HttpStatus × Option UpdateReservoirIx :=
  if isFalsy body.current_level then (.badRequest400, none)
  else
    let level := body.current_level.getD 0
    let cap :=
      if isFalsy body.capacity then storedCapacity else body.capacity.getD 0
    (.ok200, some ⟨level, cap⟩)

/-- The excess-cost formula asserted by the spec (§8) for SeasonalIncreasing,
in the reading of its worked example: `ceil((A-C) * (R + S*(M-L)/SCALE) /
SCALE)` with `R` the base rate, `S` the sensitivity, `M` the reservoir
capacity, `L` the level.  Stated only to be compared against the source-derived
`computeUsageCost`. -/
def specSeasonalIncreasingExcess (A C R S M L : ℕ) : ℕ :=
  ceilDiv ((A - C) * (R + S * (M - L) / SCALE)) SCALE

/-- The excess-cost formula asserted by the spec (§4.1) for SeasonalDecreasing:
per-unit price `R + S * (2*SCALE - L*SCALE/M)`, i.e. excess cost
`ceil((A-C) * (R + S*(2*SCALE - L*SCALE/M)) / SCALE)`.  Stated only to be
compared against the source-derived `computeUsageCost`. -/
def specSeasonalDecreasingExcess (A C R S M L : ℕ) : ℕ :=
  ceilDiv ((A - C) * (R + S * (2 * SCALE - L * SCALE / M))) SCALE

end AquaChain

namespace AquaChain

lemma SCALE_pos : 0 < SCALE := by decide

/-- Characterization of integer ceiling division: if `a ≤ b * k < a + b`
with `b > 0` then `ceilDivInt a b = k`. -/
lemma ceilDivInt_eq_of (a b k : ℤ) (hb : 0 < b) (h1 : a ≤ b * k)
    (h2 : b * k < a + b) : ceilDivInt a b = k := by
  have hbne : b ≠ 0 := hb.ne'
  have hsplit : -a = (b * k - a) + -k * b := by ring
  have hstep : -a / b = (b * k - a) / b + -k := by
    rw [hsplit, Int.add_mul_ediv_right _ _ hbne]
  have hzero : (b * k - a) / b = 0 :=
    Int.ediv_eq_zero_of_lt (by omega) (by omega)
  unfold ceilDivInt
  rw [hstep, hzero]
  ring

/-- Integer ceiling division of naturals agrees with `ceilDiv`. -/
lemma ceilDivInt_natCast (a b : ℕ) (hb : 0 < b) :
    ceilDivInt (a : ℤ) (b : ℤ) = (ceilDiv a b : ℤ) := by
  have hdm := Nat.div_add_mod (a + b - 1) b
  have hmod := Nat.mod_lt (a + b - 1) hb
  apply ceilDivInt_eq_of _ _ _ (by exact_mod_cast hb)
  · unfold ceilDiv
    omega
  · unfold ceilDiv
    omega

/-- `ceilDivInt` is monotone in the numerator for a positive denominator. -/
lemma ceilDivInt_le_ceilDivInt {a a' : ℤ} (b : ℤ) (hb : 0 < b) (h : a ≤ a') :
    ceilDivInt a b ≤ ceilDivInt a' b := by
  unfold ceilDivInt
  have := Int.ediv_le_ediv hb (neg_le_neg h)
  omega

/-- The excess cost of a zero excess is zero under every rate structure. -/
lemma excessCost_zero (tt : TariffType) (blockRate : ℕ) (r : Reservoir) :
    excessCost tt 0 blockRate r = 0 := by
  cases tt <;> simp [excessCost, ceilDivInt]

/-- A consumer whose capacity-token balance equals its contracted capacity
keeps that synchronization through any sequence of updates, never fails, and
ends at the most recently set capacity. -/
lemma applyUpdates_sync (us : List (ℕ × ℕ)) :
    ∀ c : ConsumerState, c.watcBalance = c.contractedCapacity →
      ∃ s, applyUpdates c us = Except.ok s ∧
        s.watcBalance = s.contractedCapacity ∧
        s.contractedCapacity = (us.map Prod.fst).getLastD c.contractedCapacity := by
  induction us with
  | nil => exact fun c h => ⟨c, rfl, h, rfl⟩
  | cons u us ih =>
      intro c h
      by_cases hle : c.contractedCapacity ≤ u.1
      · have hstep : updateConsumer u.1 u.2 c =
            Except.ok { c with
              contractedCapacity := u.1
              blockRate := u.2
              watcBalance := c.watcBalance + (u.1 - c.contractedCapacity) } := by
          rw [updateConsumer, if_pos hle]
        obtain ⟨s, hs, hsync, hlast⟩ :=
          ih { c with
                contractedCapacity := u.1
                blockRate := u.2
                watcBalance := c.watcBalance + (u.1 - c.contractedCapacity) }
            (by simp; omega)
        refine ⟨s, ?_, hsync, ?_⟩
        · rw [applyUpdates, List.foldlM_cons, hstep]
          exact hs
        · rw [List.map_cons, List.getLastD_cons]
          exact hlast
      · have hnoburn : ¬ c.watcBalance < c.contractedCapacity - u.1 := by omega
        have hstep : updateConsumer u.1 u.2 c =
            Except.ok { c with
              contractedCapacity := u.1
              blockRate := u.2
              watcBalance := c.watcBalance - (c.contractedCapacity - u.1) } := by
          rw [updateConsumer, if_neg hle, if_neg hnoburn]
        obtain ⟨s, hs, hsync, hlast⟩ :=
          ih { c with
                contractedCapacity := u.1
                blockRate := u.2
                watcBalance := c.watcBalance - (c.contractedCapacity - u.1) }
            (by simp; omega)
        refine ⟨s, ?_, hsync, ?_⟩
        · rw [applyUpdates, List.foldlM_cons, hstep]
          exact hs
        · rw [List.map_cons, List.getLastD_cons]
          exact hlast

end AquaChain

namespace AquaChain

/-- C1: for every consumer whose capacity-token balance is at least `amount`
(and a positive amount, the only amounts `use_water` accepts), `use_water`
mints exactly `ceil(amount * waterRate / SCALE)` usage tokens and leaves the
capacity-token balance at `contracted_remaining - amount`. -/
theorem useWater_in_contract (a : ℕ) (t : Tariff) (r : Reservoir)
    (c : ConsumerState) (h1 : 0 < a) (h2 : a ≤ c.watcBalance) :
    useWater (a : ℤ) t r c =
      Except.ok { c with
        wtkBalance := c.wtkBalance + ceilDiv (a * t.waterRate) SCALE
        watcBalance := c.watcBalance - a } := by
  have hg : ¬ ((a : ℤ) ≤ 0) := by exact_mod_cast not_le.mpr h1
  rw [useWater, if_neg hg]
  simp only [Int.toNat_natCast, computeUsageCost, Nat.min_eq_left h2,
    Nat.sub_self, excessCost_zero, add_zero,
    ceilDivInt_natCast _ _ SCALE_pos]

/-- C1 witness: the reference scenario of `src/tests/tariffs.ts` ("Consumer
can use water within contracted capacity"): amount 100000 against capacity
100000 at water rate 500 mints 50000 usage tokens and leaves 0 capacity
tokens. -/
theorem useWater_in_contract_witness :
    useWater (100000 : ℤ) ⟨500, 200, .uniformIbt⟩ ⟨950000, 1000000⟩
        ⟨100000, 800, 0, 100000, 0⟩ =
      Except.ok { contractedCapacity := 100000
                  blockRate := 800
                  wtkBalance := 0 + ceilDiv (100000 * 500) SCALE
                  watcBalance := 100000 - 100000
                  wstBalance := 0 } :=
  useWater_in_contract 100000 ⟨500, 200, .uniformIbt⟩ ⟨950000, 1000000⟩
    ⟨100000, 800, 0, 100000, 0⟩ (by decide) (by decide)

/-- C2: registration mints a capacity-token balance equal to the contracted
capacity, and every subsequent sequence of updates keeps the balance equal to
the most recently set capacity — never stale (and never negative, the
balances being naturals): the run never fails and ends synchronized at the
last update's capacity. -/
theorem capacity_token_sync (cap rate : ℕ) (us : List (ℕ × ℕ)) :
    (registerConsumer cap rate).watcBalance = cap ∧
    ∃ s, applyUpdates (registerConsumer cap rate) us = Except.ok s ∧
      s.watcBalance = s.contractedCapacity ∧
      s.contractedCapacity = (us.map Prod.fst).getLastD cap :=
  ⟨rfl, applyUpdates_sync us (registerConsumer cap rate) rfl⟩

/-- C3: under the UniformBlock rate structure, usage beyond the remaining
contracted capacity `C` costs `ceil(C*R/SCALE) + ceil((A-C)*E/SCALE)` —
the in-contract and excess portions each ceiling-rounded separately and
summed — and fully depletes the capacity-token balance. -/
theorem useWater_uniform_block (a : ℕ) (t : Tariff) (r : Reservoir)
    (c : ConsumerState) (ht : t.tariffType = .uniformIbt)
    (h : c.watcBalance < a) :
    useWater (a : ℤ) t r c =
      Except.ok { c with
        wtkBalance := c.wtkBalance +
          (ceilDiv (c.watcBalance * t.waterRate) SCALE +
            ceilDiv ((a - c.watcBalance) * c.blockRate) SCALE)
        watcBalance := 0 } := by
  have h1 : 0 < a := by omega
  have hg : ¬ ((a : ℤ) ≤ 0) := by exact_mod_cast not_le.mpr h1
  rw [useWater, if_neg hg]
  simp only [Int.toNat_natCast, computeUsageCost,
    Nat.min_eq_right (Nat.le_of_lt h), ht, excessCost,
    ceilDivInt_natCast _ _ SCALE_pos, Nat.sub_self]
  rw [← Nat.cast_add, Int.toNat_natCast]

/-- C3 witness: the reference scenario of `src/tests/tariffs.ts` ("Consumer
can use water beyond contracted capacity with Uniform IBT tariff type"):
amount 120000 against capacity 100000, water rate 500, block rate 800, costs
50000 + 16000 = 66000 usage tokens and depletes the capacity balance. -/
theorem useWater_uniform_block_witness :
    useWater (120000 : ℤ) ⟨500, 200, .uniformIbt⟩ ⟨950000, 1000000⟩
        ⟨100000, 800, 0, 100000, 0⟩ =
      Except.ok { contractedCapacity := 100000
                  blockRate := 800
                  wtkBalance := 0 + (ceilDiv (100000 * 500) SCALE +
                    ceilDiv ((120000 - 100000) * 800) SCALE)
                  watcBalance := 0
                  wstBalance := 0 } :=
  useWater_uniform_block 120000 ⟨500, 200, .uniformIbt⟩ ⟨950000, 1000000⟩
    ⟨100000, 800, 0, 100000, 0⟩ rfl (by decide)

end AquaChain


namespace AquaChain

/-- C4 counterexample: at the reference scenario of `src/tests/tariffs.ts`
("Consumer can use water beyond contracted capacity with Seasonal IBT tariff
type") — `C=100000, R=500, S=800, M=1000000, L=950000, A=120000` — the
source-derived cost is 850000 (50000 in-contract + 800000 excess), while the
claimed formula `ceil((A-C) * (R + S*(M-L)/SCALE) / SCALE)` for the excess
portion yields a total of 860000: the claimed multiplier wrongly includes the
base rate.  Moreover a strictly lower reservoir level need not yield a
strictly higher price: levels 9 and 8 below price identically. -/
theorem seasonal_increasing_claim_counterexample :
    (computeUsageCost 120000 100000 ⟨500, 200, .seasonalIbt⟩ 800
        ⟨950000, 1000000⟩).1 = 850000 ∧
    ((ceilDiv (100000 * 500) SCALE +
        specSeasonalIncreasingExcess 120000 100000 500 800 1000000 950000 : ℕ) : ℤ)
      = 860000 ∧
    (850000 : ℤ) ≠ (860000 : ℤ) ∧
    (computeUsageCost 2 1 ⟨1, 0, .seasonalIbt⟩ 1 ⟨9, 10⟩).1 =
      (computeUsageCost 2 1 ⟨1, 0, .seasonalIbt⟩ 1 ⟨8, 10⟩).1 :=
  ⟨by decide, by decide, by decide, by decide⟩

/-- C4 (amended): under SeasonalIncreasing, for `A` beyond the remaining
capacity `C` the cost is the in-contract portion `ceil(C*R/SCALE)` plus the
excess portion `ceil((A-C) * S * (M-L) / SCALE^2)` — the multiplier is
`S*(M-L)/SCALE` with no base-rate term — the capacity balance is fully
depleted, and a lower reservoir level yields a (weakly) higher price. -/
theorem seasonal_increasing_excess (a : ℕ) (t : Tariff) (S L M rem : ℕ)
    (ht : t.tariffType = .seasonalIbt) (h : rem < a) :
    (computeUsageCost a rem t S ⟨L, M⟩).1 =
      (ceilDiv (rem * t.waterRate) SCALE : ℕ) +
        ceilDivInt (((a - rem) * S : ℕ) * ((M : ℤ) - (L : ℤ)))
          ((SCALE : ℤ) * (SCALE : ℤ)) ∧
    (computeUsageCost a rem t S ⟨L, M⟩).2 = 0 ∧
    ∀ L' : ℕ, L' ≤ L →
      (computeUsageCost a rem t S ⟨L, M⟩).1 ≤
        (computeUsageCost a rem t S ⟨L', M⟩).1 := by
  refine ⟨?_, ?_, ?_⟩
  · simp [computeUsageCost, Nat.min_eq_right h.le, ht, excessCost]
  · simp [computeUsageCost, Nat.min_eq_right h.le]
  · intro L' hL'
    simp only [computeUsageCost, Nat.min_eq_right h.le, ht, excessCost]
    apply add_le_add_left
    apply ceilDivInt_le_ceilDivInt _ (by decide)
    apply mul_le_mul_of_nonneg_left _ (by positivity)
    omega

/-- C4 witness: the amended formula instantiated at the reference scenario. -/
theorem seasonal_increasing_excess_witness :
    (computeUsageCost 120000 100000 ⟨500, 200, .seasonalIbt⟩ 800
        ⟨950000, 1000000⟩).1 =
      (ceilDiv (100000 * 500) SCALE : ℕ) +
        ceilDivInt (((120000 - 100000) * 800 : ℕ) *
            ((1000000 : ℕ) - ((950000 : ℕ)) : ℤ))
          ((SCALE : ℤ) * (SCALE : ℤ)) :=
  (seasonal_increasing_excess 120000 ⟨500, 200, .seasonalIbt⟩ 800 950000
    1000000 100000 rfl (by decide)).1

/-- C5 counterexample: at the reference scenario of `src/tests/tariffs.ts`
("Consumer can use water beyond contracted capacity with Seasonal DBT tariff
type") the source-derived cost is 66800 (50000 in-contract + 16800 excess),
while the claimed per-unit price `R + S*(2*SCALE - L*SCALE/M)` yields a total
of 16860000: the claimed multiplier wrongly includes the base rate.  Moreover
the multiplier is not capped: with the reservoir level at three times the
capacity the excess portion is -16000, a negative price. -/
theorem seasonal_decreasing_claim_counterexample :
    (computeUsageCost 120000 100000 ⟨500, 200, .seasonalDbt⟩ 800
        ⟨950000, 1000000⟩).1 = 66800 ∧
    ((ceilDiv (100000 * 500) SCALE +
        specSeasonalDecreasingExcess 120000 100000 500 800 1000000 950000 : ℕ) : ℤ)
      = 16860000 ∧
    (66800 : ℤ) ≠ (16860000 : ℤ) ∧
    excessCost .seasonalDbt 20000 800 ⟨3000000, 1000000⟩ = -16000 :=
  ⟨by decide, by decide, by decide, by decide⟩

/-- C5 (amended): under SeasonalDecreasing, for `A` beyond the remaining
capacity `C` the cost is the in-contract portion `ceil(C*R/SCALE)` plus the
excess portion `ceil((A-C) * S * (2*M - L) / (M*SCALE))` (the exact form of
`(excess*S/SCALE) * (2*SCALE - L*SCALE/M) / SCALE`) — the multiplier is
`S*(2*SCALE - L*SCALE/M)/SCALE` with no base-rate term and no cap: the excess
portion is negative once the level sufficiently exceeds twice the capacity,
as the final conjunct exhibits. -/
theorem seasonal_decreasing_excess (a : ℕ) (t : Tariff) (S L M rem : ℕ)
    (ht : t.tariffType = .seasonalDbt) (h : rem < a) :
    (computeUsageCost a rem t S ⟨L, M⟩).1 =
      (ceilDiv (rem * t.waterRate) SCALE : ℕ) +
        ceilDivInt (((a - rem) * S : ℕ) * (2 * (M : ℤ) - (L : ℤ)))
          ((M : ℤ) * (SCALE : ℤ)) ∧
    (computeUsageCost a rem t S ⟨L, M⟩).2 = 0 ∧
    excessCost .seasonalDbt 1000 1000 ⟨3000, 1000⟩ < 0 := by
  refine ⟨?_, ?_, by decide⟩
  · simp [computeUsageCost, Nat.min_eq_right h.le, ht, excessCost]
  · simp [computeUsageCost, Nat.min_eq_right h.le]

/-- C5 witness: the amended formula instantiated at the reference scenario. -/
theorem seasonal_decreasing_excess_witness :
    (computeUsageCost 120000 100000 ⟨500, 200, .seasonalDbt⟩ 800
        ⟨950000, 1000000⟩).1 =
      (ceilDiv (100000 * 500) SCALE : ℕ) +
        ceilDivInt (((120000 - 100000) * 800 : ℕ) *
            (2 * ((1000000 : ℕ) : ℤ) - ((950000 : ℕ) : ℤ)))
          (((1000000 : ℕ) : ℤ) * (SCALE : ℤ)) :=
  (seasonal_decreasing_excess 120000 ⟨500, 200, .seasonalDbt⟩ 800 950000
    1000000 100000 rfl (by decide)).1

end AquaChain

namespace AquaChain

/-- C6: `dispose_waste(amount)` costs exactly `ceil(amount * waste_rate /
SCALE)` against any consumer state (so independently of contracted capacity
and of all prior operations), and two disposals of equal amount against
tariffs with the same waste rate — whatever their rate structures — mint
equal waste-token deltas. -/
theorem disposeWaste_flat (a : ℕ) (t t' : Tariff) (c c' : ConsumerState)
    (h : 0 < a) (hw : t.wasteRate = t'.wasteRate) :
    disposeWaste (a : ℤ) t c =
      Except.ok { c with
        wstBalance := c.wstBalance + ceilDiv (a * t.wasteRate) SCALE } ∧
    (disposeWaste (a : ℤ) t c).map (fun s => s.wstBalance - c.wstBalance) =
      (disposeWaste (a : ℤ) t' c').map (fun s => s.wstBalance - c'.wstBalance) := by
  have hg : ¬ ((a : ℤ) ≤ 0) := by exact_mod_cast not_le.mpr h
  have e1 : disposeWaste (a : ℤ) t c =
      Except.ok { c with
        wstBalance := c.wstBalance + ceilDiv (a * t.wasteRate) SCALE } := by
    rw [disposeWaste, if_neg hg]
    simp [Int.toNat_natCast, computeWasteCost]
  have e2 : disposeWaste (a : ℤ) t' c' =
      Except.ok { c' with
        wstBalance := c'.wstBalance + ceilDiv (a * t'.wasteRate) SCALE } := by
    rw [disposeWaste, if_neg hg]
    simp [Int.toNat_natCast, computeWasteCost]
  refine ⟨e1, ?_⟩
  rw [e1, e2, hw]
  simp [Except.map]

/-- C6 witness: the reference scenario of `src/tests/tariffs.ts` ("Consumer
can dispose waste"): amount 10000 at waste rate 200 mints 2000 waste
tokens, against two different consumer states and rate structures. -/
theorem disposeWaste_flat_witness :
    disposeWaste (10000 : ℤ) ⟨500, 200, .uniformIbt⟩ ⟨100000, 800, 0, 100000, 0⟩ =
      Except.ok { contractedCapacity := 100000
                  blockRate := 800
                  wtkBalance := 0
                  watcBalance := 100000
                  wstBalance := 0 + ceilDiv (10000 * 200) SCALE } ∧
    (disposeWaste (10000 : ℤ) ⟨500, 200, .uniformIbt⟩
        ⟨100000, 800, 0, 100000, 0⟩).map (fun s => s.wstBalance - 0) =
      (disposeWaste (10000 : ℤ) ⟨500, 200, .seasonalDbt⟩
        ⟨7, 7, 7, 7, 7⟩).map (fun s => s.wstBalance - 7) :=
  disposeWaste_flat 10000 ⟨500, 200, .uniformIbt⟩ ⟨500, 200, .seasonalDbt⟩
    ⟨100000, 800, 0, 100000, 0⟩ ⟨7, 7, 7, 7, 7⟩ (by decide) rfl

/-- C7: `pay_for_water(X)` with held balance `B ≥ X` burns exactly `X` usage
tokens leaving `B - X`; with `B < X` it fails with `InsufficientBalance` and
leaves the state unchanged; the same holds for `pay_for_waste` against the
waste-token balance.  Neither operation consults the Rate Model: they take no
tariff or reservoir argument at all. -/
theorem payment_reduces_balance (X : ℕ) (c : ConsumerState) :
    (X ≤ c.wtkBalance →
      payForWater X c = Except.ok { c with wtkBalance := c.wtkBalance - X }) ∧
    (c.wtkBalance < X →
      payForWater X c = Except.error LedgerError.insufficientBalance) ∧
    (X ≤ c.wstBalance →
      payForWaste X c = Except.ok { c with wstBalance := c.wstBalance - X }) ∧
    (c.wstBalance < X →
      payForWaste X c = Except.error LedgerError.insufficientBalance) := by
  refine ⟨fun h => ?_, fun h => ?_, fun h => ?_, fun h => ?_⟩
  · rw [payForWater, if_neg (Nat.not_lt.mpr h)]
  · rw [payForWater, if_pos h]
  · rw [payForWaste, if_neg (Nat.not_lt.mpr h)]
  · rw [payForWaste, if_pos h]

/-- C7 witness: the reference scenario of `src/tests/payments.ts`: after
accruing 50000 usage tokens, paying 50000 leaves 0; paying 50001 against the
emptied balance fails with `InsufficientBalance`. -/
theorem payment_reduces_balance_witness :
    payForWater 50000 ⟨100000, 800, 50000, 0, 2000⟩ =
      Except.ok { contractedCapacity := 100000
                  blockRate := 800
                  wtkBalance := 50000 - 50000
                  watcBalance := 0
                  wstBalance := 2000 } ∧
    payForWater 50001 ⟨100000, 800, 50000, 0, 2000⟩ =
      Except.error LedgerError.insufficientBalance ∧
    payForWaste 2000 ⟨100000, 800, 50000, 0, 2000⟩ =
      Except.ok { contractedCapacity := 100000
                  blockRate := 800
                  wtkBalance := 50000
                  watcBalance := 0
                  wstBalance := 2000 - 2000 } :=
  ⟨(payment_reduces_balance 50000 ⟨100000, 800, 50000, 0, 2000⟩).1 (by decide),
   (payment_reduces_balance 50001 ⟨100000, 800, 50000, 0, 2000⟩).2.1 (by decide),
   (payment_reduces_balance 2000 ⟨100000, 800, 50000, 0, 2000⟩).2.2.1 (by decide)⟩

/-- C8: `InitOrFetchTokens` is idempotent — if a directory exists it returns
the stored identifiers and creates nothing; a second call always returns the
same identifiers as the first and leaves the directory exactly as the first
call left it, so a second token set is never created. -/
theorem initOrFetchTokens_idempotent (d : Option TokenAccounts)
    (f f' : TokenAccounts) :
    (∀ tks, d = some tks → InitOrFetchTokens d f = (tks, some tks)) ∧
    InitOrFetchTokens (InitOrFetchTokens d f).2 f' =
      ((InitOrFetchTokens d f).1, (InitOrFetchTokens d f).2) := by
  cases d <;> simp [InitOrFetchTokens]

/-- C8 witness: with a stored directory (1, 2, 3), the call returns exactly
those identifiers and leaves the directory unchanged. -/
theorem initOrFetchTokens_idempotent_witness :
    InitOrFetchTokens (some ⟨1, 2, 3⟩) ⟨7, 8, 9⟩ = (⟨1, 2, 3⟩, some ⟨1, 2, 3⟩) :=
  (initOrFetchTokens_idempotent (some ⟨1, 2, 3⟩) ⟨7, 8, 9⟩ ⟨4, 5, 6⟩).1
    ⟨1, 2, 3⟩ rfl

end AquaChain

namespace AquaChain

/-- C9 counterexample: at amount -5 the façade's guard `if (!amount)` —
which rejects only the falsy value 0 — passes, so the request is not rejected
by the façade's validation: the `useWater` instruction is issued, its failure
is caught by the route's catch-all, and the response is the generic 500, not
the 400-class response that spec §7 prescribes for `InvalidAmount`. -/
theorem chargeWater_negative_amount_counterexample :
    ¬ ((-5 : ℤ) = 0) ∧
    (chargeWaterRoute (-5) (some ⟨100000, 800, 0, 100000, 0⟩)
        ⟨500, 200, .uniformIbt⟩ ⟨950000, 1000000⟩).1 =
      HttpStatus.serverError500 ∧
    HttpStatus.serverError500 ≠ HttpStatus.badRequest400 :=
  ⟨by decide, by decide, by decide⟩

/-- C9 (amended): for every amount ≤ 0 the charge route fails and performs no
balance mutation, but the rejection is split across layers: amount 0 (or
missing) is rejected by the façade's `!amount` guard with a 400 before any
instruction is issued, while a negative amount passes the guard, is forwarded
to the program, is rejected there by the `InvalidAmount` check before any
token is minted or burned, and surfaces from the route's catch-all as a
500. -/
theorem chargeWater_nonpositive_amended (a : ℤ) (c : ConsumerState)
    (t : Tariff) (r : Reservoir) (h : a ≤ 0) :
    (chargeWaterRoute a (some c) t r).2 = some c ∧
    (chargeWaterRoute a (some c) t r).1 ≠ HttpStatus.ok200 ∧
    (a = 0 → (chargeWaterRoute a (some c) t r).1 = HttpStatus.badRequest400) ∧
    (a < 0 → useWater a t r c = Except.error LedgerError.invalidAmount ∧
      (chargeWaterRoute a (some c) t r).1 = HttpStatus.serverError500) := by
  by_cases h0 : a = 0
  · subst h0
    simp [chargeWaterRoute]
  · have hneg : a < 0 := lt_of_le_of_ne h h0
    have huse : useWater a t r c = Except.error LedgerError.invalidAmount := by
      rw [useWater, if_pos h]
    refine ⟨?_, ?_, fun h' => absurd h' h0, fun _ => ⟨huse, ?_⟩⟩ <;>
      simp [chargeWaterRoute, h0, huse]

/-- C9 witness: the amended statement at amount -5 (forwarded, rejected by
the program, surfaced as 500) and amount 0 (rejected by the façade with
400). -/
theorem chargeWater_nonpositive_amended_witness :
    (chargeWaterRoute (-5) (some ⟨100000, 800, 0, 100000, 0⟩)
        ⟨500, 200, .uniformIbt⟩ ⟨950000, 1000000⟩).2 =
      some ⟨100000, 800, 0, 100000, 0⟩ ∧
    (chargeWaterRoute 0 (some ⟨100000, 800, 0, 100000, 0⟩)
        ⟨500, 200, .uniformIbt⟩ ⟨950000, 1000000⟩).1 =
      HttpStatus.badRequest400 :=
  ⟨(chargeWater_nonpositive_amended (-5) ⟨100000, 800, 0, 100000, 0⟩
      ⟨500, 200, .uniformIbt⟩ ⟨950000, 1000000⟩ (by decide)).1,
   (chargeWater_nonpositive_amended 0 ⟨100000, 800, 0, 100000, 0⟩
      ⟨500, 200, .uniformIbt⟩ ⟨950000, 1000000⟩ (by decide)).2.2.1 rfl⟩

/-- C10: at the reservoir-update route, a request whose `current_level` is
missing or 0 is answered 400 and issues no instruction — a level of zero can
never be recorded through this endpoint — and when `capacity` is omitted the
stored capacity is re-read and passed through unchanged alongside the given
level. -/
theorem updateReservoir_guards (body : ReservoirUpdateBody) (stored : ℤ) :
    (body.current_level = none ∨ body.current_level = some 0 →
      updateReservoirRoute body stored = (HttpStatus.badRequest400, none)) ∧
    (∀ v : ℤ, body.current_level = some v → v ≠ 0 → body.capacity = none →
      updateReservoirRoute body stored = (HttpStatus.ok200, some ⟨v, stored⟩)) := by
  constructor
  · rintro (h | h) <;> simp [updateReservoirRoute, isFalsy, h]
  · intro v hv hv0 hcap
    simp [updateReservoirRoute, isFalsy, hv, hv0, hcap]

/-- C10 witness: a body with level 0 is rejected with 400 and no instruction;
a body with level 3 and no capacity issues the instruction with the stored
capacity 7. -/
theorem updateReservoir_guards_witness :
    updateReservoirRoute ⟨some 0, some 5⟩ 7 = (HttpStatus.badRequest400, none) ∧
    updateReservoirRoute ⟨some 3, none⟩ 7 = (HttpStatus.ok200, some ⟨3, 7⟩) :=
  ⟨(updateReservoir_guards ⟨some 0, some 5⟩ 7).1 (Or.inr rfl),
   (updateReservoir_guards ⟨some 3, none⟩ 7).2 3 rfl (by decide) rfl⟩

end AquaChain
